import Mathlib

/-!
A shallow embedding of the `arionaryabhatta` ZMK status-bar widget sources.

The repository contains three near-duplicate variants of the widget:
* `config/boards/shields/arionaryabhatta/arionaryabhatta_widget.c` — a
  global-singleton widget (namespace `WidgetC` below), whose one-second
  timer handler re-arms itself, and whose `zmk_widget_status_obj` accessor
  returns `NULL`;
* a per-instance variant (`struct zmk_widget_status`) in the unnamed source
  file (namespace `PartZero` below), whose timer handler has an empty body;
* a status-screen singleton variant (namespace `StatusScreen` below), with
  no timer at all, whose `zmk_display_status_screen` returns the created
  screen object.

Modelling conventions:
* An LVGL label handle is `Option String`: `none` models a `NULL` pointer,
  `some t` a live label whose current text is `t`.  `lv_label_set_text` on a
  live label replaces the stored text.
* The external queries (`zmk_usb_is_powered`, `zmk_ble_active_profile_is_connected`,
  `zmk_battery_state_of_charge`, `k_uptime_get`) are passed as parameters to
  the embedded functions; `zmk_battery_state_of_charge` returns a `uint8_t`,
  so its values range over `0..255`, and `k_uptime_get` is nonnegative, so
  elapsed milliseconds are `Nat`.
* Work-queue effects (`k_work_schedule`) are recorded explicitly: a handler
  is embedded as the list of actions its body performs, and an init function
  additionally returns whether it armed the timer.
-/

namespace Arionaryabhatta

/-- LVGL symbol `LV_SYMBOL_WIFI` (codepoint U+F1EB). -/
def LV_SYMBOL_WIFI : String := ""

/-- LVGL symbol `LV_SYMBOL_BATTERY_FULL` (codepoint U+F240). -/
def LV_SYMBOL_BATTERY_FULL : String := ""

/-- LVGL symbol `LV_SYMBOL_BATTERY_3` (codepoint U+F241). -/
def LV_SYMBOL_BATTERY_3 : String := ""

/-- LVGL symbol `LV_SYMBOL_BATTERY_2` (codepoint U+F242). -/
def LV_SYMBOL_BATTERY_2 : String := ""

/-- LVGL symbol `LV_SYMBOL_BATTERY_1` (codepoint U+F243). -/
def LV_SYMBOL_BATTERY_1 : String := ""

/-- LVGL symbol `LV_SYMBOL_BATTERY_EMPTY` (codepoint U+F244). -/
def LV_SYMBOL_BATTERY_EMPTY : String := ""

/-- `#define WIFI_ICON LV_SYMBOL_WIFI` (identical in all three variants). -/
def WIFI_ICON : String := LV_SYMBOL_WIFI

/-- `#define NO_WIFI_ICON "  "` (identical in all three variants). -/
def NO_WIFI_ICON : String := "  "

/-- The battery-level classification shared verbatim by all three variants
(the `if`/`else if` chain of `update_battery_icon` / `set_battery_status`):
the text chosen for the battery icon from `battery_level`. -/
def classifyBattery (battery_level : Nat) : String :=
  if battery_level > 80 then LV_SYMBOL_BATTERY_FULL
  else if battery_level > 60 then LV_SYMBOL_BATTERY_3
  else if battery_level > 40 then LV_SYMBOL_BATTERY_2
  else if battery_level > 20 then LV_SYMBOL_BATTERY_1
  else LV_SYMBOL_BATTERY_EMPTY

/-- The connection classification as written in the `PartZero` and
`StatusScreen` variants (`zmk_usb_is_powered() || zmk_ble_active_profile_is_connected()`):
the text chosen for the connection icon. -/
def classifyConnection (usb_powered ble_connected : Bool) : String :=
  if usb_powered || ble_connected then WIFI_ICON else NO_WIFI_ICON

/-- `snprintf`'s `"%02d"` conversion for a nonnegative value: the decimal
representation, left-padded with `0` to width 2. -/
def pad2 (n : Nat) : String :=
  if n < 10 then "0" ++ toString n else toString n

/-- The clock-formatting computation shared verbatim by all three variants
(the body of `update_time_display` / `update_time`): wraps the uptime at 24
hours and renders `"%02d:%02d"` of hours and minutes into the 6-byte buffer. -/
def formatClock (uptime_ms : Nat) : String :=
  let total_seconds := (uptime_ms / 1000) % 86400
  let hours := (total_seconds / 3600) % 24
  let minutes := (total_seconds % 3600) / 60
  pad2 hours ++ ":" ++ pad2 minutes

/-- The effects a work-queue handler body can perform in this code base. -/
inductive Action where
  | updateTimeDisplay : Action
  | scheduleTimeWork : Nat → Action
  deriving DecidableEq, Repr

/-- Whether a handler body re-arms the delayable work item
(contains a `k_work_schedule(&time_update_work, ...)` call). -/
def rearms (handler : List Action) : Bool :=
  handler.any fun a =>
    match a with
    | Action.scheduleTimeWork _ => true
    | _ => false

/-- Whether the `n`-th one-second tick fires, given whether init scheduled
the first tick and given the handler body that runs at each tick: tick 0
fires iff init armed the work item, and tick `n+1` fires iff tick `n` fired
and its handler re-armed the work item. -/
def tickFires (initScheduled : Bool) (handler : List Action) : Nat → Bool
  | 0 => initScheduled
  | n + 1 => tickFires initScheduled handler n && rearms handler

namespace WidgetC

/-- The module-level mutable state of `arionaryabhatta_widget.c`: the four
static label handles and the `is_connected` flag. -/
structure WState where
  connection_icon : Option String
  time_label : Option String
  date_label : Option String
  battery_icon : Option String
  is_connected : Bool
  deriving DecidableEq, Repr

/-- `update_connection_icon` of `arionaryabhatta_widget.c`: returns early if
the icon handle is `NULL`; sets WIFI_ICON and `is_connected = true` when USB
is powered, again when the BLE profile is connected, and NO_WIFI_ICON with
`is_connected = false` otherwise. -/
def update_connection_icon (usb_powered ble_connected : Bool) (s : WState) : WState :=
  if s.connection_icon = none then s
  else if usb_powered then
    { s with connection_icon := some WIFI_ICON, is_connected := true }
  else if ble_connected then
    { s with connection_icon := some WIFI_ICON, is_connected := true }
  else
    { s with connection_icon := some NO_WIFI_ICON, is_connected := false }

/-- `update_time_display` of `arionaryabhatta_widget.c`: returns early if the
time label is `NULL`; otherwise formats the uptime and writes it. -/
def update_time_display (uptime_ms : Nat) (s : WState) : WState :=
  if s.time_label = none then s
  else { s with time_label := some (formatClock uptime_ms) }

/-- `update_date_display` of `arionaryabhatta_widget.c`: returns early if the
date label is `NULL`; otherwise writes the static date string. -/
def update_date_display (s : WState) : WState :=
  if s.date_label = none then s
  else { s with date_label := some "27/10/2025" }

/-- `update_battery_icon` of `arionaryabhatta_widget.c`: returns early if the
battery icon handle is `NULL`; otherwise classifies the battery level and
writes the chosen symbol. -/
def update_battery_icon (battery_level : Nat) (s : WState) : WState :=
  if s.battery_icon = none then s
  else { s with battery_icon := some (classifyBattery battery_level) }

/-- `time_update_work_handler` of `arionaryabhatta_widget.c`: calls
`update_time_display()` then `k_work_schedule(&time_update_work, K_SECONDS(1))`. -/
def time_update_work_handler : List Action :=
  [Action.updateTimeDisplay, Action.scheduleTimeWork 1000]

/-- `zmk_widget_status_init` of `arionaryabhatta_widget.c`: builds the visual
tree (the label handles come up non-`NULL` with their initial texts), runs the
four update functions once, arms the one-second timer, and returns 0.  The
result is the final module state, whether init scheduled the timer, and the
returned status code. -/
def zmk_widget_status_init (usb_powered ble_connected : Bool)
    (uptime_ms battery_level : Nat) : WState × Bool × Int :=
  let s0 : WState :=
    { connection_icon := some WIFI_ICON
      time_label := some "20:20"
      date_label := some "27/10/2025"
      battery_icon := some LV_SYMBOL_BATTERY_FULL
      is_connected := false }
  let s1 := update_connection_icon usb_powered ble_connected s0
  let s2 := update_date_display s1
  let s3 := update_battery_icon battery_level s2
  let s4 := update_time_display uptime_ms s3
  (s4, true, 0)

/-- `zmk_widget_status_obj` of `arionaryabhatta_widget.c`: `return NULL;`. -/
def zmk_widget_status_obj : Option Nat := none

end WidgetC

namespace PartZero

/-- `struct zmk_widget_status` of the per-instance variant: the widget's own
container object and its four label handles.  Object handles are `Option Nat`
(`none` models `NULL`). -/
structure zmk_widget_status where
  obj : Option Nat
  connection_icon : Option String
  time_label : Option String
  date_label : Option String
  battery_icon : Option String
  deriving DecidableEq, Repr

/-- `lv_obj_create(parent)`: LVGL object creation, assumed infallible at this
layer; modelled as returning a fresh non-`NULL` handle under `parent`. -/
def lv_obj_create (parent : Nat) : Nat := parent + 1

/-- `update_connection_icon` of the per-instance variant: returns early on a
`NULL` icon; otherwise `usb || ble` selects WIFI_ICON, else NO_WIFI_ICON. -/
def update_connection_icon (usb_powered ble_connected : Bool)
    (icon : Option String) : Option String :=
  if icon = none then icon
  else if usb_powered || ble_connected then some WIFI_ICON
  else some NO_WIFI_ICON

/-- `update_time_display` of the per-instance variant: returns early on a
`NULL` label; otherwise formats the uptime and writes it. -/
def update_time_display (uptime_ms : Nat) (label : Option String) : Option String :=
  if label = none then label
  else some (formatClock uptime_ms)

/-- `update_battery_icon` of the per-instance variant: returns early on a
`NULL` icon; otherwise classifies the battery level and writes the symbol. -/
def update_battery_icon (battery_level : Nat) (icon : Option String) : Option String :=
  if icon = none then icon
  else some (classifyBattery battery_level)

/-- `time_update_work_handler` of the per-instance variant: the body is
empty (only a comment saying updates are handled in the init function). -/
def time_update_work_handler : List Action := []

/-- `zmk_widget_status_init` of the per-instance variant: creates
`widget->obj` under `parent`, creates the four labels with their initial
texts, runs the three update functions once, and returns 0.  No timer is
ever scheduled in this variant. -/
def zmk_widget_status_init (parent : Nat) (usb_powered ble_connected : Bool)
    (uptime_ms battery_level : Nat) : zmk_widget_status × Int :=
  let obj := lv_obj_create parent
  let connection_icon := update_connection_icon usb_powered ble_connected (some WIFI_ICON)
  let battery_icon := update_battery_icon battery_level (some LV_SYMBOL_BATTERY_FULL)
  let time_label := update_time_display uptime_ms (some "20:20")
  ({ obj := some obj
     connection_icon := connection_icon
     time_label := time_label
     date_label := some "27/10/2025"
     battery_icon := battery_icon }, 0)

/-- `zmk_widget_status_obj` of the per-instance variant: `return widget->obj;`. -/
def zmk_widget_status_obj (widget : zmk_widget_status) : Option Nat := widget.obj

end PartZero

namespace StatusScreen

/-- `struct status_state` of the status-screen variant: the global `state`
holding the four label handles. -/
structure status_state where
  connection_icon : Option String
  time_label : Option String
  date_label : Option String
  battery_icon : Option String
  deriving DecidableEq, Repr

/-- `set_connection_status` of the status-screen variant: returns early on a
`NULL` icon; otherwise `usb || ble` selects WIFI_ICON, else NO_WIFI_ICON. -/
def set_connection_status (usb_powered ble_connected : Bool)
    (s : status_state) : status_state :=
  if s.connection_icon = none then s
  else if usb_powered || ble_connected then
    { s with connection_icon := some WIFI_ICON }
  else
    { s with connection_icon := some NO_WIFI_ICON }

/-- `set_battery_status` of the status-screen variant: returns early on a
`NULL` icon; otherwise classifies the battery level and writes the symbol. -/
def set_battery_status (battery_level : Nat) (s : status_state) : status_state :=
  if s.battery_icon = none then s
  else { s with battery_icon := some (classifyBattery battery_level) }

/-- `update_time` of the status-screen variant: returns early on a `NULL`
label; otherwise formats the uptime and writes it. -/
def update_time (uptime_ms : Nat) (s : status_state) : status_state :=
  if s.time_label = none then s
  else { s with time_label := some (formatClock uptime_ms) }

/-- `zmk_display_status_screen` of the status-screen variant: creates the
screen and the four labels (labels left with LVGL's default text "Text"
except the date, which is set to the static date string), runs the three
setters once, and returns the created screen object.  The screen handle is
modelled as a fresh non-`NULL` handle. -/
def zmk_display_status_screen (usb_powered ble_connected : Bool)
    (uptime_ms battery_level : Nat) : status_state × Nat :=
  let screen : Nat := 1
  let st : status_state :=
    { connection_icon := some "Text"
      time_label := some "Text"
      date_label := some "27/10/2025"
      battery_icon := some "Text" }
  let st := set_connection_status usb_powered ble_connected st
  let st := set_battery_status battery_level st
  let st := update_time uptime_ms st
  (st, screen)

end StatusScreen

/-! ## Helper lemmas -/

theorem pad2_length_two : ∀ n, n < 100 → (pad2 n).length = 2 := by decide

theorem formatClock_unfold (uptime_ms : Nat) :
    formatClock uptime_ms =
      pad2 (uptime_ms / 1000 % 86400 / 3600 % 24) ++ ":" ++
        pad2 (uptime_ms / 1000 % 86400 % 3600 / 60) := rfl

theorem formatClock_length (uptime_ms : Nat) : (formatClock uptime_ms).length = 5 := by
  rw [formatClock_unfold]
  have h1 : (pad2 (uptime_ms / 1000 % 86400 / 3600 % 24)).length = 2 :=
    pad2_length_two _ (by omega)
  have h2 : (pad2 (uptime_ms / 1000 % 86400 % 3600 / 60)).length = 2 :=
    pad2_length_two _ (by omega)
  have hc : (":" : String).length = 1 := rfl
  rw [String.length_append, String.length_append, h1, h2, hc]

/-! ## Claims -/

/-- C1: `classifyBattery` is a five-bucket step function with strict
greater-than comparisons: `p > 80` yields the full glyph, 61–80 tier-3,
41–60 tier-2, 21–40 tier-1, `p ≤ 20` empty; the boundary values
20, 21, 40, 41, 60, 61, 80, 81 map as the table says (80, 60, 40, 20 fall
into the lower bucket), 0 maps to empty, 100 maps to full, and for every
`p` in [0,100] exactly one of the five (pairwise distinct) glyphs is
returned. -/
theorem classifyBattery_five_buckets :
    (∀ p : Nat,
      (80 < p → classifyBattery p = LV_SYMBOL_BATTERY_FULL) ∧
      (60 < p → p ≤ 80 → classifyBattery p = LV_SYMBOL_BATTERY_3) ∧
      (40 < p → p ≤ 60 → classifyBattery p = LV_SYMBOL_BATTERY_2) ∧
      (20 < p → p ≤ 40 → classifyBattery p = LV_SYMBOL_BATTERY_1) ∧
      (p ≤ 20 → classifyBattery p = LV_SYMBOL_BATTERY_EMPTY) ∧
      (p ≤ 100 → classifyBattery p ∈
        [LV_SYMBOL_BATTERY_FULL, LV_SYMBOL_BATTERY_3, LV_SYMBOL_BATTERY_2,
         LV_SYMBOL_BATTERY_1, LV_SYMBOL_BATTERY_EMPTY])) ∧
    [LV_SYMBOL_BATTERY_FULL, LV_SYMBOL_BATTERY_3, LV_SYMBOL_BATTERY_2,
     LV_SYMBOL_BATTERY_1, LV_SYMBOL_BATTERY_EMPTY].Nodup ∧
    classifyBattery 20 = LV_SYMBOL_BATTERY_EMPTY ∧
    classifyBattery 21 = LV_SYMBOL_BATTERY_1 ∧
    classifyBattery 40 = LV_SYMBOL_BATTERY_1 ∧
    classifyBattery 41 = LV_SYMBOL_BATTERY_2 ∧
    classifyBattery 60 = LV_SYMBOL_BATTERY_2 ∧
    classifyBattery 61 = LV_SYMBOL_BATTERY_3 ∧
    classifyBattery 80 = LV_SYMBOL_BATTERY_3 ∧
    classifyBattery 81 = LV_SYMBOL_BATTERY_FULL ∧
    classifyBattery 0 = LV_SYMBOL_BATTERY_EMPTY ∧
    classifyBattery 100 = LV_SYMBOL_BATTERY_FULL := by
  refine ⟨fun p => ⟨?_, ?_, ?_, ?_, ?_, ?_⟩, by decide, by decide, by decide, by decide,
    by decide, by decide, by decide, by decide, by decide, by decide, by decide⟩
  · intro h
    simp only [classifyBattery]
    rw [if_pos h]
  · intro h1 h2
    simp only [classifyBattery]
    rw [if_neg (by omega), if_pos h1]
  · intro h1 h2
    simp only [classifyBattery]
    rw [if_neg (by omega), if_neg (by omega), if_pos h1]
  · intro h1 h2
    simp only [classifyBattery]
    rw [if_neg (by omega), if_neg (by omega), if_neg (by omega), if_pos h1]
  · intro h
    simp only [classifyBattery]
    rw [if_neg (by omega), if_neg (by omega), if_neg (by omega), if_neg (by omega)]
  · intro _
    simp only [classifyBattery]
    split_ifs <;> simp

/-- C1 witness: the bucket implications instantiated at 100 (full) and at
15 (empty), with each hypothesis discharged at the concrete input. -/
theorem classifyBattery_five_buckets_witness :
    (80 < 100 ∧ classifyBattery 100 = LV_SYMBOL_BATTERY_FULL) ∧
    ((15 : Nat) ≤ 20 ∧ classifyBattery 15 = LV_SYMBOL_BATTERY_EMPTY) :=
  ⟨⟨by decide, (classifyBattery_five_buckets.1 100).1 (by decide)⟩,
   ⟨by decide, (classifyBattery_five_buckets.1 15).2.2.2.2.1 (by decide)⟩⟩

/-- C2: `formatClock` computes `totalSeconds = (elapsedMillis / 1000) mod 86400`,
`hours = (totalSeconds / 3600) mod 24`, `minutes = (totalSeconds mod 3600) / 60`,
zero-padding both to two digits; consequently `formatClock 0 = "00:00"`,
`formatClock 3661000 = "01:01"`, `formatClock 86400000 = "00:00"` (wraps at
24 hours), and `formatClock 86399999 = "23:59"`. -/
theorem formatClock_correct :
    (∀ elapsedMillis : Nat,
      formatClock elapsedMillis =
        pad2 (elapsedMillis / 1000 % 86400 / 3600 % 24) ++ ":" ++
          pad2 (elapsedMillis / 1000 % 86400 % 3600 / 60)) ∧
    formatClock 0 = "00:00" ∧
    formatClock 3661000 = "01:01" ∧
    formatClock 86400000 = "00:00" ∧
    formatClock 86399999 = "23:59" :=
  ⟨fun _ => rfl, by decide, by decide, by decide, by decide⟩

/-- C4: out-of-range battery readings behave exactly like the clamped
reading: over the raw query's whole `uint8_t` domain (and in fact over all
of `Nat`), `classifyBattery p = classifyBattery (min p 100)`, and the
refresh operation invoked with `p` produces the same state as with
`min p 100`, so an out-of-range reading never selects a different glyph. -/
theorem classifyBattery_clamp_equiv :
    ∀ (p : Nat) (s : WidgetC.WState),
      classifyBattery p = classifyBattery (min p 100) ∧
      WidgetC.update_battery_icon p s = WidgetC.update_battery_icon (min p 100) s := by
  have key : ∀ p : Nat, classifyBattery p = classifyBattery (min p 100) := by
    intro p
    by_cases h : p ≤ 100
    · rw [Nat.min_eq_left h]
    · have h1 : 80 < p := by omega
      have h2 : min p 100 = 100 := by omega
      have h3 : classifyBattery p = LV_SYMBOL_BATTERY_FULL := by
        simp only [classifyBattery]
        rw [if_pos h1]
      rw [h3, h2]
      decide
  intro p s
  refine ⟨key p, ?_⟩
  simp only [WidgetC.update_battery_icon, key p]

/-- C5: after every time refresh, the clock text written to the time label
is `formatClock` of the uptime, has exactly 5 characters in `HH:MM` form
with `HH < 24` and `MM < 60`, and together with its terminator fits the
fixed 6-byte buffer; this holds for the `WidgetC` and the per-instance
variant alike. -/
theorem update_time_display_wellformed :
    ∀ (uptime_ms : Nat) (s : WidgetC.WState) (c : String),
      s.time_label ≠ none →
      (WidgetC.update_time_display uptime_ms s).time_label =
        some (formatClock uptime_ms) ∧
      PartZero.update_time_display uptime_ms (some c) = some (formatClock uptime_ms) ∧
      (formatClock uptime_ms).length = 5 ∧
      (formatClock uptime_ms).length + 1 ≤ 6 ∧
      ∃ h m, h < 24 ∧ m < 60 ∧ formatClock uptime_ms = pad2 h ++ ":" ++ pad2 m := by
  intro uptime_ms s c hs
  refine ⟨?_, ?_, formatClock_length uptime_ms, ?_, ?_⟩
  · simp only [WidgetC.update_time_display]
    rw [if_neg hs]
  · simp [PartZero.update_time_display]
  · rw [formatClock_length]
  · exact ⟨uptime_ms / 1000 % 86400 / 3600 % 24, uptime_ms / 1000 % 86400 % 3600 / 60,
      by omega, by omega, formatClock_unfold uptime_ms⟩

/-- C5 witness: the time refresh at uptime 3661000 on a state with a live
time label writes the 5-character text "01:01". -/
theorem update_time_display_wellformed_witness :
    ({ connection_icon := none, time_label := some "20:20", date_label := none,
       battery_icon := none, is_connected := false } : WidgetC.WState).time_label ≠ none ∧
    (WidgetC.update_time_display 3661000
      { connection_icon := none, time_label := some "20:20", date_label := none,
        battery_icon := none, is_connected := false }).time_label =
      some (formatClock 3661000) ∧
    (formatClock 3661000).length = 5 :=
  ⟨by decide,
   (update_time_display_wellformed 3661000
      { connection_icon := none, time_label := some "20:20", date_label := none,
        battery_icon := none, is_connected := false } "x" (by decide)).1,
   (update_time_display_wellformed 3661000
      { connection_icon := none, time_label := some "20:20", date_label := none,
        battery_icon := none, is_connected := false } "x" (by decide)).2.2.1⟩

/-- C3: for all four boolean combinations, the connection refresh writes the
"connected" glyph iff `usbPowered OR bleConnected` and the blank glyph
otherwise, and the three source variants of the connection-refresh operation
write the identical text. -/
theorem classifyConnection_iff :
    ∀ (usb ble : Bool) (s : WidgetC.WState) (icon : Option String)
      (t : StatusScreen.status_state),
      s.connection_icon ≠ none → icon ≠ none → t.connection_icon ≠ none →
      (classifyConnection usb ble = WIFI_ICON ↔ (usb || ble) = true) ∧
      (classifyConnection usb ble = NO_WIFI_ICON ↔ (usb || ble) = false) ∧
      (WidgetC.update_connection_icon usb ble s).connection_icon =
        some (classifyConnection usb ble) ∧
      PartZero.update_connection_icon usb ble icon = some (classifyConnection usb ble) ∧
      (StatusScreen.set_connection_status usb ble t).connection_icon =
        some (classifyConnection usb ble) := by
  intro usb ble s icon t hs hi ht
  refine ⟨by cases usb <;> cases ble <;> decide, by cases usb <;> cases ble <;> decide,
    ?_, ?_, ?_⟩
  · simp only [WidgetC.update_connection_icon]
    rw [if_neg hs]
    cases usb <;> cases ble <;> rfl
  · simp only [PartZero.update_connection_icon]
    rw [if_neg hi]
    cases usb <;> cases ble <;> rfl
  · simp only [StatusScreen.set_connection_status]
    rw [if_neg ht]
    cases usb <;> cases ble <;> rfl

/-- C3 witness: at `usb = false`, `ble = true` and live icon handles, all
three variants write the connected glyph. -/
theorem classifyConnection_iff_witness :
    (WidgetC.update_connection_icon false true
      { connection_icon := some NO_WIFI_ICON, time_label := none, date_label := none,
        battery_icon := none, is_connected := false }).connection_icon =
      some (classifyConnection false true) ∧
    PartZero.update_connection_icon false true (some NO_WIFI_ICON) =
      some (classifyConnection false true) ∧
    (StatusScreen.set_connection_status false true
      { connection_icon := some NO_WIFI_ICON, time_label := none, date_label := none,
        battery_icon := none }).connection_icon = some (classifyConnection false true) :=
  ⟨(classifyConnection_iff false true
      { connection_icon := some NO_WIFI_ICON, time_label := none, date_label := none,
        battery_icon := none, is_connected := false } (some NO_WIFI_ICON)
      { connection_icon := some NO_WIFI_ICON, time_label := none, date_label := none,
        battery_icon := none } (by decide) (by decide) (by decide)).2.2.1,
   (classifyConnection_iff false true
      { connection_icon := some NO_WIFI_ICON, time_label := none, date_label := none,
        battery_icon := none, is_connected := false } (some NO_WIFI_ICON)
      { connection_icon := some NO_WIFI_ICON, time_label := none, date_label := none,
        battery_icon := none } (by decide) (by decide) (by decide)).2.2.2.1,
   (classifyConnection_iff false true
      { connection_icon := some NO_WIFI_ICON, time_label := none, date_label := none,
        battery_icon := none, is_connected := false } (some NO_WIFI_ICON)
      { connection_icon := some NO_WIFI_ICON, time_label := none, date_label := none,
        battery_icon := none } (by decide) (by decide) (by decide)).2.2.2.2⟩

/-- C6 counterexample: the claim says every source variant's time-update
work handler re-arms itself, but the per-instance variant's handler has an
empty body — it performs no actions at all and in particular never calls
`k_work_schedule`. -/
theorem time_update_work_handler_no_rearm :
    rearms PartZero.time_update_work_handler = false ∧
    PartZero.time_update_work_handler = [] :=
  ⟨rfl, rfl⟩

/-- C6 (amended): in the `arionaryabhatta_widget.c` variant, the handler
updates the time display and re-arms itself one second (1000 ms) later, and
`zmk_widget_status_init` arms the first tick, so every tick fires — the time
display is refreshed once per second indefinitely.  The per-instance
variant's handler does not re-arm. -/
theorem time_update_work_rearms :
    ∀ (usb ble : Bool) (uptime_ms battery_level n : Nat),
      rearms WidgetC.time_update_work_handler = true ∧
      Action.updateTimeDisplay ∈ WidgetC.time_update_work_handler ∧
      Action.scheduleTimeWork 1000 ∈ WidgetC.time_update_work_handler ∧
      (WidgetC.zmk_widget_status_init usb ble uptime_ms battery_level).2.1 = true ∧
      tickFires (WidgetC.zmk_widget_status_init usb ble uptime_ms battery_level).2.1
        WidgetC.time_update_work_handler n = true ∧
      rearms PartZero.time_update_work_handler = false := by
  intro usb ble uptime_ms battery_level n
  have hinit : (WidgetC.zmk_widget_status_init usb ble uptime_ms battery_level).2.1 =
      true := rfl
  refine ⟨rfl, by decide, by decide, hinit, ?_, rfl⟩
  rw [hinit]
  induction n with
  | zero => rfl
  | succ k ih => rw [tickFires, ih]; rfl

/-- C7 counterexample: in `arionaryabhatta_widget.c`, the widget-object
accessor `zmk_widget_status_obj` returns `NULL` — the handle obtainable from
it is absent, contradicting the claim as stated. -/
theorem zmk_widget_status_obj_absent :
    WidgetC.zmk_widget_status_obj = none := rfl

/-- C7 (amended): in the per-instance variant, `zmk_widget_status_init`
attaches a freshly created display object under the parent surface and
returns 0, and the widget-object accessor returns that created object
(non-absent); the `arionaryabhatta_widget.c` variant's init returns only the
status code 0 and its accessor returns `NULL`. -/
theorem zmk_widget_status_obj_present :
    ∀ (parent : Nat) (usb ble : Bool) (uptime_ms battery_level : Nat),
      PartZero.zmk_widget_status_obj
        (PartZero.zmk_widget_status_init parent usb ble uptime_ms battery_level).1 =
        some (PartZero.lv_obj_create parent) ∧
      (PartZero.zmk_widget_status_obj
        (PartZero.zmk_widget_status_init parent usb ble uptime_ms
          battery_level).1).isSome = true ∧
      (PartZero.zmk_widget_status_init parent usb ble uptime_ms battery_level).2 = 0 ∧
      (WidgetC.zmk_widget_status_init usb ble uptime_ms battery_level).2.2 = 0 ∧
      WidgetC.zmk_widget_status_obj = none :=
  fun _ _ _ _ _ => ⟨rfl, rfl, rfl, rfl, rfl⟩

/-- C8: in `arionaryabhatta_widget.c`, each refresh operation with an absent
(`NULL`) display handle is a silent no-op: the whole module state — every
label text and the `is_connected` flag — is returned unchanged, uniformly
across the connection, time, battery (and date) paths. -/
theorem null_handle_guard :
    ∀ (usb ble : Bool) (uptime_ms battery_level : Nat) (s : WidgetC.WState),
      (s.connection_icon = none → WidgetC.update_connection_icon usb ble s = s) ∧
      (s.time_label = none → WidgetC.update_time_display uptime_ms s = s) ∧
      (s.battery_icon = none → WidgetC.update_battery_icon battery_level s = s) ∧
      (s.date_label = none → WidgetC.update_date_display s = s) := by
  intro usb ble uptime_ms battery_level s
  refine ⟨fun h => ?_, fun h => ?_, fun h => ?_, fun h => ?_⟩
  · simp only [WidgetC.update_connection_icon]
    rw [if_pos h]
  · simp only [WidgetC.update_time_display]
    rw [if_pos h]
  · simp only [WidgetC.update_battery_icon]
    rw [if_pos h]
  · simp only [WidgetC.update_date_display]
    rw [if_pos h]

/-- C8 witness: on the all-`NULL` state, all four update operations return
the state unchanged. -/
theorem null_handle_guard_witness :
    WidgetC.update_connection_icon true false
      { connection_icon := none, time_label := none, date_label := none,
        battery_icon := none, is_connected := false } =
      { connection_icon := none, time_label := none, date_label := none,
        battery_icon := none, is_connected := false } ∧
    WidgetC.update_time_display 3661000
      { connection_icon := none, time_label := none, date_label := none,
        battery_icon := none, is_connected := false } =
      { connection_icon := none, time_label := none, date_label := none,
        battery_icon := none, is_connected := false } ∧
    WidgetC.update_battery_icon 45
      { connection_icon := none, time_label := none, date_label := none,
        battery_icon := none, is_connected := false } =
      { connection_icon := none, time_label := none, date_label := none,
        battery_icon := none, is_connected := false } ∧
    WidgetC.update_date_display
      { connection_icon := none, time_label := none, date_label := none,
        battery_icon := none, is_connected := false } =
      { connection_icon := none, time_label := none, date_label := none,
        battery_icon := none, is_connected := false } :=
  ⟨(null_handle_guard true false 3661000 45
      { connection_icon := none, time_label := none, date_label := none,
        battery_icon := none, is_connected := false }).1 rfl,
   (null_handle_guard true false 3661000 45
      { connection_icon := none, time_label := none, date_label := none,
        battery_icon := none, is_connected := false }).2.1 rfl,
   (null_handle_guard true false 3661000 45
      { connection_icon := none, time_label := none, date_label := none,
        battery_icon := none, is_connected := false }).2.2.1 rfl,
   (null_handle_guard true false 3661000 45
      { connection_icon := none, time_label := none, date_label := none,
        battery_icon := none, is_connected := false }).2.2.2 rfl⟩

/-- C9: the battery refresh mutates only the battery glyph, in both the
`WidgetC` and status-screen variants: connection glyph, clock text, date
text (and the connection flag) keep their previous values while the battery
glyph becomes the classification of the new level; in the 45%-with-BLE
scenario, dropping to 15% turns the battery glyph empty while the connection
glyph stays connected. -/
theorem update_battery_icon_frame :
    ∀ (battery_level : Nat) (s : WidgetC.WState) (t : StatusScreen.status_state),
      s.battery_icon ≠ none → t.battery_icon ≠ none →
      (WidgetC.update_battery_icon battery_level s).connection_icon =
        s.connection_icon ∧
      (WidgetC.update_battery_icon battery_level s).time_label = s.time_label ∧
      (WidgetC.update_battery_icon battery_level s).date_label = s.date_label ∧
      (WidgetC.update_battery_icon battery_level s).is_connected = s.is_connected ∧
      (WidgetC.update_battery_icon battery_level s).battery_icon =
        some (classifyBattery battery_level) ∧
      (StatusScreen.set_battery_status battery_level t).connection_icon =
        t.connection_icon ∧
      (StatusScreen.set_battery_status battery_level t).time_label = t.time_label ∧
      (StatusScreen.set_battery_status battery_level t).date_label = t.date_label ∧
      (StatusScreen.set_battery_status battery_level t).battery_icon =
        some (classifyBattery battery_level) ∧
      classifyBattery 45 = LV_SYMBOL_BATTERY_2 ∧
      classifyBattery 15 = LV_SYMBOL_BATTERY_EMPTY ∧
      (WidgetC.update_battery_icon 15
        (WidgetC.update_connection_icon false true
          { connection_icon := some NO_WIFI_ICON, time_label := some "20:20",
            date_label := some "27/10/2025",
            battery_icon := some LV_SYMBOL_BATTERY_2,
            is_connected := false })).connection_icon = some WIFI_ICON ∧
      (WidgetC.update_battery_icon 15
        (WidgetC.update_connection_icon false true
          { connection_icon := some NO_WIFI_ICON, time_label := some "20:20",
            date_label := some "27/10/2025",
            battery_icon := some LV_SYMBOL_BATTERY_2,
            is_connected := false })).battery_icon =
        some LV_SYMBOL_BATTERY_EMPTY := by
  intro battery_level s t hs ht
  have hb : WidgetC.update_battery_icon battery_level s =
      { s with battery_icon := some (classifyBattery battery_level) } := by
    simp only [WidgetC.update_battery_icon]
    rw [if_neg hs]
  have hc : StatusScreen.set_battery_status battery_level t =
      { t with battery_icon := some (classifyBattery battery_level) } := by
    simp only [StatusScreen.set_battery_status]
    rw [if_neg ht]
  rw [hb, hc]
  refine ⟨rfl, rfl, rfl, rfl, rfl, rfl, rfl, rfl, rfl, by decide, by decide, by decide,
    by decide⟩

/-- C9 witness: at battery level 15 on a live state with BLE connected at
45%, the frame conditions hold at a concrete input. -/
theorem update_battery_icon_frame_witness :
    (WidgetC.update_battery_icon 15
      { connection_icon := some WIFI_ICON, time_label := some "20:20",
        date_label := some "27/10/2025", battery_icon := some LV_SYMBOL_BATTERY_2,
        is_connected := true }).connection_icon = some WIFI_ICON ∧
    (WidgetC.update_battery_icon 15
      { connection_icon := some WIFI_ICON, time_label := some "20:20",
        date_label := some "27/10/2025", battery_icon := some LV_SYMBOL_BATTERY_2,
        is_connected := true }).battery_icon = some (classifyBattery 15) :=
  ⟨(update_battery_icon_frame 15
      { connection_icon := some WIFI_ICON, time_label := some "20:20",
        date_label := some "27/10/2025", battery_icon := some LV_SYMBOL_BATTERY_2,
        is_connected := true }
      { connection_icon := some WIFI_ICON, time_label := some "20:20",
        date_label := some "27/10/2025", battery_icon := some LV_SYMBOL_BATTERY_2 }
      (by decide) (by decide)).1,
   (update_battery_icon_frame 15
      { connection_icon := some WIFI_ICON, time_label := some "20:20",
        date_label := some "27/10/2025", battery_icon := some LV_SYMBOL_BATTERY_2,
        is_connected := true }
      { connection_icon := some WIFI_ICON, time_label := some "20:20",
        date_label := some "27/10/2025", battery_icon := some LV_SYMBOL_BATTERY_2 }
      (by decide) (by decide)).2.2.2.2.1⟩

/-- C10: the date text is the hard-coded constant "27/10/2025": the date
update operation writes exactly that string whenever the date label is live,
every variant's initialization sets the date label to that string whatever
the external inputs are, and no other refresh operation touches the date
label — so the displayed date never changes. -/
theorem date_label_constant :
    ∀ (usb ble : Bool) (uptime_ms battery_level parent : Nat) (s : WidgetC.WState),
      (s.date_label ≠ none →
        (WidgetC.update_date_display s).date_label = some "27/10/2025") ∧
      (WidgetC.zmk_widget_status_init usb ble uptime_ms battery_level).1.date_label =
        some "27/10/2025" ∧
      (PartZero.zmk_widget_status_init parent usb ble uptime_ms
        battery_level).1.date_label = some "27/10/2025" ∧
      (StatusScreen.zmk_display_status_screen usb ble uptime_ms
        battery_level).1.date_label = some "27/10/2025" ∧
      (WidgetC.update_time_display uptime_ms s).date_label = s.date_label ∧
      (WidgetC.update_connection_icon usb ble s).date_label = s.date_label ∧
      (WidgetC.update_battery_icon battery_level s).date_label = s.date_label := by
  intro usb ble uptime_ms battery_level parent s
  refine ⟨fun h => ?_, ?_, ?_, ?_, ?_, ?_, ?_⟩
  · simp only [WidgetC.update_date_display]
    rw [if_neg h]
  · cases usb <;> cases ble <;> rfl
  · cases usb <;> cases ble <;> rfl
  · cases usb <;> cases ble <;> rfl
  · simp only [WidgetC.update_time_display]
    split_ifs <;> rfl
  · simp only [WidgetC.update_connection_icon]
    split_ifs <;> rfl
  · simp only [WidgetC.update_battery_icon]
    split_ifs <;> rfl

/-- C10 witness: on a state with a live date label, the date update writes
"27/10/2025", and all three inits set it, at concrete inputs. -/
theorem date_label_constant_witness :
    (WidgetC.update_date_display
      { connection_icon := none, time_label := none, date_label := some "x",
        battery_icon := none, is_connected := false }).date_label =
      some "27/10/2025" ∧
    (WidgetC.zmk_widget_status_init true false 3661000 45).1.date_label =
      some "27/10/2025" ∧
    (PartZero.zmk_widget_status_init 7 true false 3661000 45).1.date_label =
      some "27/10/2025" ∧
    (StatusScreen.zmk_display_status_screen true false 3661000 45).1.date_label =
      some "27/10/2025" :=
  ⟨(date_label_constant true false 3661000 45 7
      { connection_icon := none, time_label := none, date_label := some "x",
        battery_icon := none, is_connected := false }).1 (by decide),
   (date_label_constant true false 3661000 45 7
      { connection_icon := none, time_label := none, date_label := some "x",
        battery_icon := none, is_connected := false }).2.1,
   (date_label_constant true false 3661000 45 7
      { connection_icon := none, time_label := none, date_label := some "x",
        battery_icon := none, is_connected := false }).2.2.1,
   (date_label_constant true false 3661000 45 7
      { connection_icon := none, time_label := none, date_label := some "x",
        battery_icon := none, is_connected := false }).2.2.2.1⟩

end Arionaryabhatta
